import Mathlib

/-!
Shallow embedding of the SQLite-backed Flight SQL example server
(`cpp/src/arrow/flight/flight-sql/example/sqlite_server.cc`) and proofs
about its type mapper, metadata query builders, prepared-statement
registry, and parameter binder.
-/

set_option maxRecDepth 100000

namespace ArrowSqliteServer

/-! ### ASCII case folding, mirroring the boost string predicates used by the server -/

/-- ASCII lower-casing of a single character, as the C locale tolower does. -/
def lowerChar (c : Char) : Char :=
  if c.toNat ≥ 65 ∧ c.toNat ≤ 90 then Char.ofNat (c.toNat + 32) else c

/-- ASCII lower-casing of a string. -/
def lowerStr (s : String) : String :=
  ⟨s.data.map lowerChar⟩

/-- Case-insensitive string equality, mirroring boost iequals. -/
def ieq (a b : String) : Bool :=
  lowerStr a == lowerStr b

/-- Case-insensitive starts-with test, mirroring boost istarts With. -/
def istartsWith (s pre : String) : Bool :=
  List.isPrefixOf (lowerStr pre).data (lowerStr s).data

/-- The single-quote character, written by code point to keep SQL text explicit. -/
def sqc : Char := Char.ofNat 39

/-- The single-quote as a one-character string, used when splicing SQL literals. -/
def sq : String := String.singleton sqc

/-! ### Type Mapper: `GetArrowType` (sqlite_server.cc lines 39 to 58) -/

/-- The transport data types produced by the server model. -/
inductive DataTypeR
  | nullT
  | int64T
  | float64T
  | binaryT
  | utf8T
  | unknownUnionT
  deriving DecidableEq, Repr

/-- Translation of `GetArrowType`: maps an optional SQLite declared column type
name to a transport type.  A null pointer argument is modelled as `none`. -/
def GetArrowType (sqliteType : Option String) : DataTypeR :=
  match sqliteType with
  | none => .nullT
  | some s =>
    if ieq s "int" || ieq s "integer" then .int64T
    else if ieq s "REAL" then .float64T
    else if ieq s "BLOB" then .binaryT
    else if ieq s "TEXT" || istartsWith s "char" || istartsWith s "varchar" then .utf8T
    else .nullT

/-- The Type Mapper rules as the specification states them, written from the
spec wording (case-insensitive, in priority order, permissive fallback) to be
compared against `GetArrowType`. -/
def specTypeMapperRules (nativeName : Option String) : DataTypeR :=
  match nativeName with
  | none => .nullT
  | some s =>
    if ieq s "int" || ieq s "integer" then .int64T
    else if ieq s "real" then .float64T
    else if ieq s "blob" then .binaryT
    else if ieq s "text" || istartsWith s "char" || istartsWith s "varchar" then .utf8T
    else .nullT

/-! ### Metadata Query Builder: `PrepareQueryForGetTables` (lines 60 to 95) -/

/-- The GetTables command filters (protobuf `CommandGetTables`); each filter
field is optional, the table-type list may be empty. -/
structure CommandGetTables where
  catalog : Option String
  schemaFilterPattern : Option String
  tableNameFilterPattern : Option String
  tableTypes : List String
  includeSchema : Bool
  deriving DecidableEq, Repr

/-- The quoted, comma-separated table-type list built by the loop in
`PrepareQueryForGetTables`. -/
def quotedTypeList : List String → String
  | [] => ""
  | [t] => sq ++ t ++ sq
  | t :: rest => sq ++ t ++ sq ++ "," ++ quotedTypeList rest

/-- Translation of `PrepareQueryForGetTables`: builds the SQL text for the
GetTables command by sequential appends on the base query. -/
def PrepareQueryForGetTables (command : CommandGetTables) : String :=
  let q0 := "SELECT null as catalog_name, null as schema_name, name as table_name, type as table_type FROM sqlite_master where 1=1"
  let q1 := match command.catalog with
    | none => q0
    | some c => q0 ++ " and catalog_name=" ++ sq ++ c ++ sq
  let q2 := match command.schemaFilterPattern with
    | none => q1
    | some p => q1 ++ " and schema_name LIKE " ++ sq ++ p ++ sq
  let q3 := match command.tableNameFilterPattern with
    | none => q2
    | some p => q2 ++ " and table_name LIKE " ++ sq ++ p ++ sq
  let q4 := if command.tableTypes.isEmpty then q3
    else q3 ++ " and table_type IN (" ++ quotedTypeList command.tableTypes ++ ")"
  q4 ++ " order by table_name"

/-- The fixed base of the GetTables query. -/
def tablesQueryBase : String :=
  "SELECT null as catalog_name, null as schema_name, name as table_name, type as table_type FROM sqlite_master where 1=1"

/-- The catalog equality filter, appended only when the catalog field is present. -/
def catalogFilterPart : Option String → String
  | none => ""
  | some c => " and catalog_name=" ++ sq ++ c ++ sq

/-- The schema LIKE filter, appended only when the schema pattern is present. -/
def schemaFilterPart : Option String → String
  | none => ""
  | some p => " and schema_name LIKE " ++ sq ++ p ++ sq

/-- The table-name LIKE filter, appended only when the name pattern is present. -/
def tableNameFilterPart : Option String → String
  | none => ""
  | some p => " and table_name LIKE " ++ sq ++ p ++ sq

/-- The table-type IN filter, appended only when the type list is non-empty. -/
def tableTypesFilterPart : List String → String
  | [] => ""
  | t :: rest => " and table_type IN (" ++ quotedTypeList (t :: rest) ++ ")"

/-! ### Imported and exported keys query (lines 563 to 594)

The builder `PrepareQueryForGetImportedOrExportedKeys` splices a filter into a
fixed SQL template.  The definitions below translate that template into an
evaluator over a model of the SQLite catalog: `sqlite_master` rows and the
rows of `pragma_foreign_key_list` for each table. -/

/-- A row of `sqlite_master`: an object name and its type. -/
structure MasterEntry where
  name : String
  mtype : String
  deriving DecidableEq, Repr

/-- A row of `pragma_foreign_key_list(t)`: referenced table, key sequence,
referencing and referenced column, and the textual update and delete actions. -/
structure FkEntry where
  table : String
  seq : Nat
  fromCol : String
  toCol : String
  onUpdate : Option String
  onDelete : Option String
  deriving DecidableEq, Repr

/-- One output row of the imported or exported keys query.  The catalog,
schema and key-name columns are the NULL literals of the template. -/
structure KeyRow where
  pkCatalogName : Option String
  pkSchemaName : Option String
  pkTableName : String
  pkColumnName : String
  fkCatalogName : Option String
  fkSchemaName : Option String
  fkTableName : String
  fkColumnName : String
  keySequence : Nat
  pkKeyName : Option String
  fkKeyName : Option String
  updateRule : Option Nat
  deleteRule : Option Nat
  deriving DecidableEq, Repr

/-- Translation of the CASE expression of the template: the textual foreign-key
action is mapped to a small integer code, and any other value, the NULL value
included, falls off the end of the CASE and yields NULL. -/
def actionCode : Option String → Option Nat
  | none => none
  | some a =>
    if a = "CASCADE" then some 0
    else if a = "RESTRICT" then some 1
    else if a = "SET NULL" then some 2
    else if a = "NO ACTION" then some 3
    else if a = "SET DEFAULT" then some 4
    else none

/-- The SELECT list of the template applied to one joined pair of a
`sqlite_master` row `m` and a `pragma_foreign_key_list(m.name)` row `p`. -/
def keyRowOf (m : MasterEntry) (p : FkEntry) : KeyRow where
  pkCatalogName := none
  pkSchemaName := none
  pkTableName := p.table
  pkColumnName := p.toCol
  fkCatalogName := none
  fkSchemaName := none
  fkTableName := m.name
  fkColumnName := p.fromCol
  keySequence := p.seq
  pkKeyName := none
  fkKeyName := none
  updateRule := actionCode p.onUpdate
  deleteRule := actionCode p.onDelete

/-- The inner subquery of the template: join `sqlite_master` rows of type
`table` with their foreign-key rows, keeping only pairs whose join condition
`m.name != p."table"` holds. -/
def innerKeyRows (masters : List MasterEntry) (fkList : String → List FkEntry) : List KeyRow :=
  (masters.filter (fun m => m.mtype == "table")).flatMap
    (fun m => ((fkList m.name).filter (fun p => m.name != p.table)).map (keyRowOf m))

/-- The ORDER BY comparator of the template: lexicographic on
`pk_catalog_name, pk_schema_name, pk_table_name, pk_key_name, key_sequence`,
with the NULL value ordered before any string. -/
def keyRowCompare : KeyRow → KeyRow → Ordering :=
  compareLex (compareOn (·.pkCatalogName))
    (compareLex (compareOn (·.pkSchemaName))
      (compareLex (compareOn (·.pkTableName))
        (compareLex (compareOn (·.pkKeyName))
          (compareOn (·.keySequence)))))

/-- The non-strict order induced by `keyRowCompare`. -/
def keyRowLe (a b : KeyRow) : Prop := keyRowCompare a b ≠ .gt

instance : DecidableRel keyRowLe := fun a b =>
  inferInstanceAs (Decidable (keyRowCompare a b ≠ .gt))

instance optionTransOrd {α : Type} [Ord α] [Batteries.TransOrd α] :
    Batteries.TransOrd (Option α) where
  symm x y := by
    cases x <;> cases y <;>
      first
        | rfl
        | (simp only [compare, Ord.compare, Ordering.swap]
           exact Batteries.OrientedCmp.symm ..)
  le_trans {x y z} h1 h2 := by
    cases x <;> cases y <;> cases z <;> simp_all only [compare, Ord.compare, ne_eq] <;>
      first
        | exact Batteries.TransCmp.le_trans h1 h2
        | simp_all

instance : Batteries.TransCmp keyRowCompare := by
  unfold keyRowCompare
  infer_instance

instance : IsTrans KeyRow keyRowLe :=
  ⟨fun _ _ _ h1 h2 => Batteries.TransCmp.le_trans h1 h2⟩

instance : IsTotal KeyRow keyRowLe := by
  constructor
  intro a b
  by_cases h : keyRowCompare a b = .gt
  · exact Or.inr (fun hb => by
      have := Batteries.OrientedCmp.cmp_eq_gt.mp h
      simp [keyRowLe, this] at hb)
  · exact Or.inl h

/-- The full imported or exported keys query: inner join rows, the WHERE
filter spliced by the caller, then the ORDER BY sort. -/
def importedExportedKeyRows (masters : List MasterEntry) (fkList : String → List FkEntry)
    (filter : KeyRow → Bool) : List KeyRow :=
  List.insertionSort keyRowLe ((innerKeyRows masters fkList).filter filter)

/-! ### Prepared-statement registry (lines 330 to 451) -/

/-- A compiled SQLite statement, as the registry model sees it: the declared
output columns (name and optional declared type) and, for each bind
placeholder in order, its optional native parameter name. -/
structure SqliteStmt where
  columns : List (String × Option String)
  params : List (Option String)
  deriving DecidableEq, Repr

/-- The registry: the `prepared_statements_` map from textual uuid to
statement, modelled as an association list keyed by the uuid string. -/
def Registry := List (String × SqliteStmt)

/-- A field of a transport schema. -/
structure FieldR where
  fname : String
  ftype : DataTypeR
  deriving DecidableEq, Repr

/-- Modelled from the spec: `SqliteStatement::GetSchema` lives in
`sqlite_statement.cc`, which is not among the provided sources.  Per the
specification, Create derives the dataset schema by inspecting the compiled
statement declared output columns via the Type Mapper. -/
def statementDatasetSchema (s : SqliteStmt) : List FieldR :=
  s.columns.map (fun c => ⟨c.1, GetArrowType c.2⟩)

/-- The parameter-schema loop of `CreatePreparedStatement` (lines 354 to 363):
field `i` (0-based loop index) is named by the native placeholder name when
SQLite reports one and `parameter_<i+1>` otherwise, and every field carries
the dense-union placeholder type. -/
def parameterFields : List (Option String) → Nat → List FieldR
  | [], _ => []
  | p :: rest, i =>
    ⟨match p with
      | none => "parameter_" ++ toString (i + 1)
      | some nm => nm,
     DataTypeR.unknownUnionT⟩ :: parameterFields rest (i + 1)

/-- The parameter schema derived by `CreatePreparedStatement`. -/
def parameterSchemaOf (s : SqliteStmt) : List FieldR :=
  parameterFields s.params 0

/-- The result returned by `CreatePreparedStatement`. -/
structure CreateResult where
  handle : String
  datasetSchema : List FieldR
  parameterSchema : List FieldR
  deriving DecidableEq, Repr

/-- Translation of `CreatePreparedStatement` after the engine compiled the
statement: a fresh uuid `h` (drawn by the external generator) keys the
statement in the map, and the derived schemas are returned with the handle. -/
def createPreparedStatement (reg : Registry) (s : SqliteStmt) (h : String) :
    CreateResult × Registry :=
  (⟨h, statementDatasetSchema s, parameterSchemaOf s⟩, (h, s) :: reg)

/-- Exact-match lookup of a uuid in the registry map. -/
def resolveUuid (reg : Registry) (u : String) : Option SqliteStmt :=
  List.lookup u reg

/-- Erasure of a uuid key from the registry map. -/
def eraseKey (reg : Registry) (u : String) : Registry :=
  reg.filter (fun p => p.1 != u)

/-- The status value a handler returns. -/
inductive Status
  | ok
  | invalid (msg : String)
  deriving DecidableEq, Repr

/-- The status `ClosePreparedStatement` and the prepared-statement handlers
return for an unknown or already closed handle; the specification taxonomy
calls this error class NotFound. -/
def notFoundStatus : Status := .invalid "Prepared statement not found"

/-- Translation of `ClosePreparedStatement` at the registry level (lines 389
to 394): erase the entry when the uuid is found, error otherwise. -/
def closePrepared (reg : Registry) (u : String) : Status × Registry :=
  match List.lookup u reg with
  | some _ => (.ok, eraseKey reg u)
  | none => (notFoundStatus, reg)

/-! ### Handle decoding and the dispatcher boundary (lines 383 to 451) -/

/-- Truth value of a character being a hexadecimal digit. -/
def isHexDigit (c : Char) : Bool :=
  (c ≥ '0' && c ≤ '9') || (c ≥ 'a' && c ≤ 'f') || (c ≥ 'A' && c ≤ 'F')

/-- Shape check for the canonical dashed textual uuid form: 36 characters,
dashes at offsets 8, 13, 18 and 23, hexadecimal digits elsewhere. -/
def uuidShapeOk : List Char → Nat → Bool
  | [], i => i == 36
  | c :: rest, i =>
    (if i == 8 || i == 13 || i == 18 || i == 23 then c == '-' else isHexDigit c)
      && uuidShapeOk rest (i + 1)

/-- Model of the external boost lexical cast from a handle string to a uuid:
the canonical dashed hexadecimal form parses (normalised to lower case, the
canonical form the generator emits); any other string makes the cast throw,
which `none` stands for here. -/
def parseUuid (s : String) : Option String :=
  if uuidShapeOk s.data 0 then some (lowerStr s) else none

/-- What a handler call does at the dispatcher boundary: either a C++
exception escapes, or a status is returned as the command result. -/
inductive CallOutcome
  | thrown (msg : String)
  | returned (st : Status)
  deriving DecidableEq, Repr

/-- Translation of the shared resolve step of `ClosePreparedStatement`,
`GetFlightInfoPreparedStatement`, `DoGetPreparedStatement` and
`DoPutPreparedStatement`: the handle string is lexically cast to a uuid with
no surrounding try block, then looked up in the map. -/
def doGetPreparedStatementOutcome (reg : Registry) (handle : String) : CallOutcome :=
  match parseUuid handle with
  | none => .thrown "boost::bad_lexical_cast"
  | some u =>
    match List.lookup u reg with
    | none => .returned notFoundStatus
    | some _ => .returned .ok

/-- Translation of `ClosePreparedStatement` as seen from the dispatcher
boundary, registry update included. -/
def closePreparedStatementOutcome (reg : Registry) (handle : String) :
    CallOutcome × Registry :=
  match parseUuid handle with
  | none => (.thrown "boost::bad_lexical_cast", reg)
  | some u =>
    match closePrepared reg u with
    | (st, reg2) => (.returned st, reg2)

/-! ### Parameter binder: `DoPutPreparedStatement` (lines 456 to 511) -/

/-- A decoded parameter cell: the value held by the dense-union scalar of the
incoming batch, discriminated by its transport type id.  Float payloads are
kept abstract since the binder only forwards them. -/
inductive Cell
  | int64C (v : Int)
  | floatC
  | doubleC
  | stringC (bytes : List Nat)
  | binaryC (bytes : List Nat)
  | boolC (b : Bool)
  | int32C (v : Int)
  | listC (vs : List (List Nat))
  | mapC
  deriving DecidableEq, Repr

/-- The rendered name of the type held by a cell, as Arrow DataType ToString
prints it in the unsupported-type error message. -/
def Cell.typeName : Cell → String
  | .int64C _ => "int64"
  | .floatC => "float"
  | .doubleC => "double"
  | .stringC _ => "string"
  | .binaryC _ => "binary"
  | .boolC _ => "bool"
  | .int32C _ => "int32"
  | .listC _ => "list<item: string>"
  | .mapC => "map<int32, list<item: int32>>"

/-- Lifetime flag passed to the SQLite text and blob bind calls. -/
inductive BindLifetime
  | transient
  deriving DecidableEq, Repr

/-- One native bind call issued on the prepared statement. -/
inductive BindCall
  | bindInt64 (pos : Nat) (v : Int)
  | bindDouble (pos : Nat)
  | bindText (pos : Nat) (bytes : List Nat) (life : BindLifetime)
  | bindBlob (pos : Nat) (bytes : List Nat) (len : Nat) (life : BindLifetime)
  deriving DecidableEq, Repr

/-- Length computed by C strlen on the NUL-terminated copy of a byte string:
the count of bytes before the first zero byte. -/
def cStrLen (bs : List Nat) : Nat :=
  (bs.takeWhile (fun b => b != 0)).length

/-- Translation of the switch of `DoPutPreparedStatement` for one cell at
1-based position `pos`: INT64 and FLOAT forward to the native bind calls,
STRING binds the first `strlen` bytes of the NUL-terminated copy with
transient lifetime, BINARY binds the whole buffer with its byte size and
transient lifetime, and every other type id falls to the default case, which
fails the command naming the offending type. -/
def bindCell (pos : Nat) : Cell → Except String BindCall
  | .int64C v => .ok (.bindInt64 pos v)
  | .floatC => .ok (.bindDouble pos)
  | .stringC bs => .ok (.bindText pos (bs.take (cStrLen bs)) .transient)
  | .binaryC bs => .ok (.bindBlob pos bs bs.length .transient)
  | c => .error ("Received unsupported data type: " ++ c.typeName)

/-- Binding of one row: column `c` (0-based) binds at position `c + 1`;
the first failing cell fails the whole command. -/
def bindRow : List Cell → Nat → Except String (List BindCall)
  | [], _ => .ok []
  | cell :: rest, c => do
    let b ← bindCell (c + 1) cell
    let bs ← bindRow rest (c + 1)
    .ok (b :: bs)

/-- Binding of all rows of all batches in row-major order. -/
def bindRows : List (List Cell) → Except String (List BindCall)
  | [] => .ok []
  | row :: rest => do
    let bs ← bindRow row 0
    let more ← bindRows rest
    .ok (bs ++ more)

/-! ### GetCatalogs and GetSchemas handlers (lines 218 to 260) -/

/-- The GetSchemas command filters. -/
structure CommandGetSchemas where
  catalog : Option String
  schemaFilterPattern : Option String
  deriving DecidableEq, Repr

/-- The fixed metadata result schemas involved in the empty-result handlers. -/
inductive MetadataSchemaId
  | catalogsSchema
  | schemasSchema
  deriving DecidableEq, Repr

/-- What an empty-result metadata handler produces: the list of SQL texts it
ran against the engine, the fixed schema shaping the result, the row count of
the single batch, and the number of column arrays backing it. -/
structure EmptyResultModel where
  queriesRun : List String
  schemaId : MetadataSchemaId
  rowCount : Nat
  columnArrays : Nat
  deriving DecidableEq, Repr

/-- Translation of `DoGetCatalogs`: one zero-row batch over the catalogs
schema built from an empty string array; no statement is created against the
engine. -/
def DoGetCatalogs : EmptyResultModel :=
  ⟨[], .catalogsSchema, 0, 1⟩

/-- Translation of `DoGetSchemas`: one zero-row batch over the schemas schema
built from two empty string arrays; the command filters are never read and no
statement is created against the engine. -/
def DoGetSchemas (_command : CommandGetSchemas) : EmptyResultModel :=
  ⟨[], .schemasSchema, 0, 2⟩

/-! ## Theorems -/

/-- C5: the Type Mapper is a pure total function on an optional native type
name with, case-insensitively and in priority order: absent maps to the null
type; int and integer map to 64-bit integer; real maps to 64-bit float; blob
maps to variable-length binary; text and any name starting with char or
varchar map to UTF-8 string; every other input maps to the null type and
never produces an error. -/
theorem C5_type_mapper_rules :
    (∀ s : Option String, GetArrowType s = specTypeMapperRules s) ∧
    GetArrowType none = .nullT ∧
    GetArrowType (some "INTEGER") = .int64T ∧
    GetArrowType (some "int") = .int64T ∧
    GetArrowType (some "REAL") = .float64T ∧
    GetArrowType (some "blob") = .binaryT ∧
    GetArrowType (some "TEXT") = .utf8T ∧
    GetArrowType (some "varchar(100)") = .utf8T ∧
    GetArrowType (some "CHAR(10)") = .utf8T ∧
    GetArrowType (some "unknown_xyz") = .nullT := by
  refine ⟨fun s => ?_, by decide, by decide, by decide, by decide, by decide,
    by decide, by decide, by decide, by decide⟩
  cases s <;> rfl

/-- C6: for every GetTables command, the generated SQL appends an equality
filter on catalog only if the catalog field is present, LIKE filters on
schema and table-name patterns only if those fields are present, an IN list
quoting each requested table type only if the table-types list is non-empty,
and always ends in order by table_name; for the filters catalog c with table
types table and view it contains the catalog equality and the quoted IN
list. -/
theorem C6_getTables_query :
    (∀ cmd : CommandGetTables,
      PrepareQueryForGetTables cmd =
        tablesQueryBase ++ catalogFilterPart cmd.catalog ++
          schemaFilterPart cmd.schemaFilterPattern ++
          tableNameFilterPart cmd.tableNameFilterPattern ++
          tableTypesFilterPart cmd.tableTypes ++ " order by table_name") ∧
    (∀ cmd : CommandGetTables,
      ∃ p, PrepareQueryForGetTables cmd = p ++ " order by table_name") ∧
    List.IsInfix ("catalog_name=" ++ sq ++ "c" ++ sq).data
      (PrepareQueryForGetTables ⟨some "c", none, none, ["table", "view"], false⟩).data ∧
    List.IsInfix (" and table_type IN (" ++ sq ++ "table" ++ sq ++ "," ++ sq ++ "view" ++ sq ++ ")").data
      (PrepareQueryForGetTables ⟨some "c", none, none, ["table", "view"], false⟩).data := by
  have base : ∀ cmd : CommandGetTables,
      PrepareQueryForGetTables cmd =
        tablesQueryBase ++ catalogFilterPart cmd.catalog ++
          schemaFilterPart cmd.schemaFilterPattern ++
          tableNameFilterPart cmd.tableNameFilterPattern ++
          tableTypesFilterPart cmd.tableTypes ++ " order by table_name" := by
    rintro ⟨cat, sch, tn, tts, inc⟩
    cases cat <;> cases sch <;> cases tn <;> cases tts <;>
      (simp [PrepareQueryForGetTables, tablesQueryBase, catalogFilterPart,
        schemaFilterPart, tableNameFilterPart, tableTypesFilterPart,
        String.append_empty, String.append_assoc]
       try rfl)
  refine ⟨base, fun cmd => ⟨_, base cmd⟩, by decide, by decide⟩

/-- C7: the SQL generated for GetImportedKeys and GetExportedKeys excludes
self-referencing foreign-key rows, maps the action names CASCADE, RESTRICT,
SET NULL, NO ACTION, SET DEFAULT to the integer codes 0 through 4 in that
order for both the update and the delete rule (any other or NULL action
yields null), and orders output by catalog, schema, table, key name, then key
sequence (the catalog, schema and key-name sort columns being the NULL
literals of the template). -/
theorem C7_imported_exported_keys :
    (∀ (masters : List MasterEntry) (fkList : String → List FkEntry)
        (filter : KeyRow → Bool) (r : KeyRow),
      r ∈ importedExportedKeyRows masters fkList filter →
        r.fkTableName ≠ r.pkTableName ∧
        r.pkCatalogName = none ∧ r.pkSchemaName = none ∧ r.pkKeyName = none ∧
        ∃ m ∈ masters, ∃ p ∈ fkList m.name,
          m.mtype = "table" ∧ m.name ≠ p.table ∧ r = keyRowOf m p) ∧
    (∀ (masters : List MasterEntry) (fkList : String → List FkEntry)
        (filter : KeyRow → Bool),
      (importedExportedKeyRows masters fkList filter).Sorted keyRowLe) ∧
    (actionCode (some "CASCADE") = some 0 ∧ actionCode (some "RESTRICT") = some 1 ∧
      actionCode (some "SET NULL") = some 2 ∧ actionCode (some "NO ACTION") = some 3 ∧
      actionCode (some "SET DEFAULT") = some 4 ∧ actionCode none = none) ∧
    (∀ a : String,
      a ∉ (["CASCADE", "RESTRICT", "SET NULL", "NO ACTION", "SET DEFAULT"] : List String) →
        actionCode (some a) = none) ∧
    (∀ (m : MasterEntry) (p : FkEntry),
      (keyRowOf m p).updateRule = actionCode p.onUpdate ∧
        (keyRowOf m p).deleteRule = actionCode p.onDelete) := by
  refine ⟨?_, ?_, by refine ⟨rfl, rfl, rfl, rfl, rfl, rfl⟩, ?_, fun m p => ⟨rfl, rfl⟩⟩
  · intro masters fkList filter r hr
    have hr2 : r ∈ (innerKeyRows masters fkList).filter filter :=
      (List.mem_insertionSort keyRowLe).mp hr
    have hr3 : r ∈ innerKeyRows masters fkList := (List.mem_filter.mp hr2).1
    obtain ⟨m, hm, hrm⟩ := List.mem_flatMap.mp hr3
    obtain ⟨p, hp, hrp⟩ := List.mem_map.mp hrm
    obtain ⟨hmm, hmt⟩ := List.mem_filter.mp hm
    obtain ⟨hpf, hpt⟩ := List.mem_filter.mp hp
    have htype : m.mtype = "table" := by simpa using hmt
    have hneq : m.name ≠ p.table := by simpa using hpt
    subst hrp
    exact ⟨by simpa [keyRowOf] using hneq, rfl, rfl, rfl,
      m, hmm, p, hpf, htype, hneq, rfl⟩
  · intro masters fkList filter
    exact List.sorted_insertionSort keyRowLe _
  · intro a ha
    simp only [List.mem_cons, List.not_mem_nil, or_false, not_or] at ha
    obtain ⟨h1, h2, h3, h4, h5⟩ := ha
    simp [actionCode, h1, h2, h3, h4, h5]

/-- Witness for C7: a concrete catalog with one cross-table foreign key
produces a row whose referencing and referenced tables differ, and an
unrecognised action string maps to null. -/
theorem C7_imported_exported_keys_witness :
    (keyRowOf ⟨"intTable", "table"⟩
        ⟨"foreignTable", 0, "foreignId", "id", some "NO ACTION", some "CASCADE"⟩).fkTableName ≠
      (keyRowOf ⟨"intTable", "table"⟩
        ⟨"foreignTable", 0, "foreignId", "id", some "NO ACTION", some "CASCADE"⟩).pkTableName ∧
    actionCode (some "SET IMMEDIATE") = none :=
  ⟨(C7_imported_exported_keys.1 [⟨"intTable", "table"⟩]
      (fun n => if n == "intTable"
        then [⟨"foreignTable", 0, "foreignId", "id", some "NO ACTION", some "CASCADE"⟩]
        else [])
      (fun _ => true)
      (keyRowOf ⟨"intTable", "table"⟩
        ⟨"foreignTable", 0, "foreignId", "id", some "NO ACTION", some "CASCADE"⟩)
      (by decide)).1,
   C7_imported_exported_keys.2.2.2.1 "SET IMMEDIATE" (by decide)⟩

/-- Erasing a key from the registry makes any later exact-match lookup of
that key fail. -/
theorem lookup_eraseKey_self (reg : Registry) (u : String) :
    List.lookup u (eraseKey reg u) = none := by
  induction reg with
  | nil => rfl
  | cons hd tl ih =>
    obtain ⟨k, v⟩ := hd
    simp only [eraseKey, List.filter_cons] at ih ⊢
    by_cases h : k = u
    · simpa [h] using ih
    · have h1 : (k == u) = false := by simp [h]
      have h2 : (u == k) = false := by simp [Ne.symm h]
      simp only [bne, h1, Bool.not_false, if_true, List.lookup, h2]
      exact ih

/-- C3: for every handle H present in the registry, Close(H) succeeds and
removes the entry; afterwards both Resolve(H) and a second Close(H) fail with
the not-found error, and the second close leaves the registry unchanged. -/
theorem C3_close_removes_handle :
    ∀ (reg : Registry) (u : String) (s : SqliteStmt),
      List.lookup u reg = some s →
        (closePrepared reg u).1 = Status.ok ∧
        (closePrepared reg u).2 = eraseKey reg u ∧
        resolveUuid (closePrepared reg u).2 u = none ∧
        (closePrepared (closePrepared reg u).2 u).1 = notFoundStatus ∧
        (closePrepared (closePrepared reg u).2 u).2 = (closePrepared reg u).2 := by
  intro reg u s h
  have h2 : List.lookup u (eraseKey reg u) = none := lookup_eraseKey_self reg u
  refine ⟨?_, ?_, ?_, ?_, ?_⟩ <;> simp [closePrepared, resolveUuid, h, h2]

/-- Witness for C3 at a one-entry registry. -/
theorem C3_close_removes_handle_witness :
    (closePrepared [("aaaa", ⟨[], []⟩)] "aaaa").1 = Status.ok ∧
    (closePrepared [("aaaa", ⟨[], []⟩)] "aaaa").2 = eraseKey [("aaaa", ⟨[], []⟩)] "aaaa" ∧
    resolveUuid (closePrepared [("aaaa", ⟨[], []⟩)] "aaaa").2 "aaaa" = none ∧
    (closePrepared (closePrepared [("aaaa", ⟨[], []⟩)] "aaaa").2 "aaaa").1 = notFoundStatus ∧
    (closePrepared (closePrepared [("aaaa", ⟨[], []⟩)] "aaaa").2 "aaaa").2 =
      (closePrepared [("aaaa", ⟨[], []⟩)] "aaaa").2 :=
  C3_close_removes_handle [("aaaa", ⟨[], []⟩)] "aaaa" ⟨[], []⟩ (by decide)

/-- Counterexample to C2 as stated: at the concrete malformed handle string
not-a-uuid the resolve failure is a lexical-cast exception escaping the
handler, not a status returned as the command result. -/
theorem C2_malformed_handle_counterexample :
    doGetPreparedStatementOutcome [] "not-a-uuid" =
      CallOutcome.thrown "boost::bad_lexical_cast" := by decide

/-- C2 as amended: for a well-formed but unknown or already-closed handle the
resolve failure is returned as the command result with the not-found status;
a malformed handle encoding, however, escapes the handler as a lexical-cast
exception, for both the DoGet-style resolve and the close handler. -/
theorem C2_resolve_failure_policy :
    (∀ (reg : Registry) (handle : String), parseUuid handle = none →
      doGetPreparedStatementOutcome reg handle = .thrown "boost::bad_lexical_cast" ∧
      (closePreparedStatementOutcome reg handle).1 = .thrown "boost::bad_lexical_cast") ∧
    (∀ (reg : Registry) (handle u : String), parseUuid handle = some u →
      List.lookup u reg = none →
      doGetPreparedStatementOutcome reg handle = .returned notFoundStatus ∧
      (closePreparedStatementOutcome reg handle).1 = .returned notFoundStatus) := by
  constructor
  · intro reg handle h
    exact ⟨by simp [doGetPreparedStatementOutcome, h],
      by simp [closePreparedStatementOutcome, h]⟩
  · intro reg handle u h hl
    exact ⟨by simp [doGetPreparedStatementOutcome, h, hl],
      by simp [closePreparedStatementOutcome, closePrepared, h, hl]⟩

/-- Witness for C2 as amended: a malformed handle throws; a well-formed
absent handle returns the not-found status. -/
theorem C2_resolve_failure_policy_witness :
    doGetPreparedStatementOutcome [] "xyz" = .thrown "boost::bad_lexical_cast" ∧
    doGetPreparedStatementOutcome [] "00000000-0000-0000-0000-000000000000" =
      .returned notFoundStatus :=
  ⟨(C2_resolve_failure_policy.1 [] "xyz" (by decide)).1,
   (C2_resolve_failure_policy.2 [] "00000000-0000-0000-0000-000000000000"
      "00000000-0000-0000-0000-000000000000" (by decide) rfl).1⟩

/-- The parameter-schema loop yields one field per placeholder. -/
theorem parameterFields_length (ps : List (Option String)) :
    ∀ k, (parameterFields ps k).length = ps.length := by
  induction ps with
  | nil => intro k; rfl
  | cons p rest ih => intro k; simp [parameterFields, ih]

/-- Element-wise description of the parameter-schema loop, for an arbitrary
starting loop index. -/
theorem parameterFields_get (ps : List (Option String)) :
    ∀ (k i : Nat),
      (parameterFields ps k)[i]? =
        ps[i]?.map (fun p =>
          (⟨match p with
            | none => "parameter_" ++ toString (k + i + 1)
            | some nm => nm,
            DataTypeR.unknownUnionT⟩ : FieldR)) := by
  induction ps with
  | nil => intro k i; simp [parameterFields]
  | cons p rest ih =>
    intro k i
    cases i with
    | zero => simp [parameterFields]
    | succ j =>
      simp only [parameterFields, List.getElem?_cons_succ, ih (k + 1) j]
      have : k + 1 + j + 1 = k + (j + 1) + 1 := by omega
      rw [this]

/-- C4: for a statement the engine accepted, Create returns the fresh handle,
inserts the compiled statement so that Resolve finds it again, and the
derived dataset and parameter schemas have one field per declared output
column and one field per bind placeholder respectively. -/
theorem C4_create_resolve_roundtrip :
    ∀ (reg : Registry) (s : SqliteStmt) (h : String),
      List.lookup h reg = none →
        (createPreparedStatement reg s h).1.handle = h ∧
        resolveUuid (createPreparedStatement reg s h).2 h = some s ∧
        (createPreparedStatement reg s h).1.datasetSchema = statementDatasetSchema s ∧
        ((createPreparedStatement reg s h).1.datasetSchema).length = s.columns.length ∧
        ((createPreparedStatement reg s h).1.parameterSchema).length = s.params.length := by
  intro reg s h _
  refine ⟨rfl, ?_, rfl, ?_, ?_⟩
  · simp [resolveUuid, createPreparedStatement, List.lookup]
  · simp [createPreparedStatement, statementDatasetSchema]
  · simpa [createPreparedStatement, parameterSchemaOf] using parameterFields_length s.params 0

/-- Witness for C4 at a fresh handle over the empty registry. -/
theorem C4_create_resolve_roundtrip_witness :
    (createPreparedStatement [] ⟨[("id", some "INTEGER")], [none]⟩ "h1").1.handle = "h1" ∧
    resolveUuid (createPreparedStatement [] ⟨[("id", some "INTEGER")], [none]⟩ "h1").2 "h1" =
      some ⟨[("id", some "INTEGER")], [none]⟩ ∧
    (createPreparedStatement [] ⟨[("id", some "INTEGER")], [none]⟩ "h1").1.datasetSchema =
      statementDatasetSchema ⟨[("id", some "INTEGER")], [none]⟩ ∧
    ((createPreparedStatement [] ⟨[("id", some "INTEGER")], [none]⟩ "h1").1.datasetSchema).length = 1 ∧
    ((createPreparedStatement [] ⟨[("id", some "INTEGER")], [none]⟩ "h1").1.parameterSchema).length = 1 :=
  C4_create_resolve_roundtrip [] ⟨[("id", some "INTEGER")], [none]⟩ "h1" rfl

/-- C9: the parameter schema derived by Create has exactly one field per bind
placeholder, positionally ordered, where field i (1-based) is named by the
native placeholder name when SQLite reports one and parameter_i otherwise,
and every field carries the unknown-value placeholder union type. -/
theorem C9_parameter_schema_fields :
    ∀ (s : SqliteStmt),
      (parameterSchemaOf s).length = s.params.length ∧
      ∀ (i : Nat) (p : Option String), s.params[i]? = some p →
        (parameterSchemaOf s)[i]? =
          some ⟨match p with
                | none => "parameter_" ++ toString (i + 1)
                | some nm => nm,
                DataTypeR.unknownUnionT⟩ := by
  intro s
  refine ⟨parameterFields_length s.params 0, ?_⟩
  intro i p hp
  have h2 := parameterFields_get s.params 0 i
  rw [hp] at h2
  simpa [parameterSchemaOf, Nat.zero_add] using h2

/-- Witness for C9: a two-placeholder statement, one anonymous placeholder
and one named placeholder. -/
theorem C9_parameter_schema_fields_witness :
    (parameterSchemaOf ⟨[], [none, some ":key"]⟩).length = 2 ∧
    ((parameterSchemaOf ⟨[], [none, some ":key"]⟩)[0]? =
      some ⟨"parameter_1", DataTypeR.unknownUnionT⟩ ∧
     (parameterSchemaOf ⟨[], [none, some ":key"]⟩)[1]? =
      some ⟨":key", DataTypeR.unknownUnionT⟩) :=
  ⟨(C9_parameter_schema_fields ⟨[], [none, some ":key"]⟩).1,
   (C9_parameter_schema_fields ⟨[], [none, some ":key"]⟩).2 0 none rfl,
   (C9_parameter_schema_fields ⟨[], [none, some ":key"]⟩).2 1 (some ":key") rfl⟩

/-- C1, evaluation at the failing input: a cell decoded as a 64-bit float
(type id DOUBLE) does not reach a native bind call; the switch matches the
32-bit FLOAT type id instead, so the 64-bit float falls to the default case
and fails the command as an unsupported type, while the variants the claim
lists behave as stated. -/
theorem C1_binder_double_rejected :
    bindCell 1 Cell.doubleC = .error "Received unsupported data type: double" ∧
    bindCell 1 Cell.floatC = .ok (.bindDouble 1) ∧
    bindCell 1 (Cell.int64C 7) = .ok (.bindInt64 1 7) ∧
    bindCell 1 (Cell.stringC [97, 98, 99]) = .ok (.bindText 1 [97, 98, 99] .transient) ∧
    bindCell 1 (Cell.binaryC [0, 255]) = .ok (.bindBlob 1 [0, 255] 2 .transient) ∧
    bindCell 1 (Cell.boolC true) = .error "Received unsupported data type: bool" ∧
    bindCell 1 (Cell.int32C 5) = .error "Received unsupported data type: int32" ∧
    bindCell 1 (Cell.listC []) = .error "Received unsupported data type: list<item: string>" ∧
    bindCell 1 Cell.mapC = .error "Received unsupported data type: map<int32, list<item: int32>>" :=
  ⟨rfl, rfl, rfl, rfl, rfl, rfl, rfl, rfl, rfl⟩

/-- Taking strlen-many bytes is taking the bytes before the first NUL. -/
theorem take_cStrLen (bs : List Nat) :
    bs.take (cStrLen bs) = bs.takeWhile (fun b => b != 0) := by
  induction bs with
  | nil => rfl
  | cons b t ih =>
    simp only [cStrLen, List.takeWhile_cons] at ih ⊢
    by_cases h : b = 0
    · simp [h]
    · have hb : (b != 0) = true := by simp [h]
      simp [hb, List.take_succ_cons, ih]

/-- A byte string containing a NUL loses at least its suffix from the first
NUL on when measured by strlen. -/
theorem takeWhile_ne_zero_length_lt (bs : List Nat) (h : 0 ∈ bs) :
    (bs.takeWhile (fun b => b != 0)).length < bs.length := by
  induction bs with
  | nil => cases h
  | cons b t ih =>
    by_cases hb : b = 0
    · simp [List.takeWhile_cons, hb]
    · have ht : 0 ∈ t := by
        cases List.mem_cons.mp h with
        | inl heq => exact absurd heq.symm hb
        | inr hmem => exact hmem
      simp only [List.takeWhile_cons, bne, hb]
      simpa [hb] using ih ht

/-- C10: a string parameter cell is bound with the length computed by strlen
of the NUL-terminated copy, so a string value with an embedded NUL byte is
bound truncated at the first NUL; a binary cell is always bound with the full
buffer byte size. -/
theorem C10_strlen_truncation :
    ∀ (pos : Nat) (bs : List Nat),
      bindCell pos (.stringC bs) =
        .ok (.bindText pos (bs.takeWhile (fun b => b != 0)) .transient) ∧
      (0 ∈ bs → (bs.takeWhile (fun b => b != 0)).length < bs.length) ∧
      bindCell pos (.binaryC bs) = .ok (.bindBlob pos bs bs.length .transient) := by
  intro pos bs
  exact ⟨by simp [bindCell, take_cStrLen], takeWhile_ne_zero_length_lt bs, rfl⟩

/-- Witness for C10: the bytes h, NUL, i bind as the single byte h, strictly
shorter than the value, while the same bytes as a blob keep length 3. -/
theorem C10_strlen_truncation_witness :
    bindCell 1 (.stringC [104, 0, 105]) =
      .ok (.bindText 1 ([104, 0, 105].takeWhile (fun b => b != 0)) .transient) ∧
    ([104, 0, 105].takeWhile (fun b : Nat => b != 0)).length < 3 ∧
    bindCell 1 (.binaryC [104, 0, 105]) = .ok (.bindBlob 1 [104, 0, 105] 3 .transient) :=
  ⟨(C10_strlen_truncation 1 [104, 0, 105]).1,
   (C10_strlen_truncation 1 [104, 0, 105]).2.1 (by decide),
   (C10_strlen_truncation 1 [104, 0, 105]).2.2⟩

/-- C8: GetCatalogs and GetSchemas, with any filter values, produce a
zero-row result shaped by the respective fixed metadata schema and run no SQL
against the engine. -/
theorem C8_empty_metadata_results :
    DoGetCatalogs = ⟨[], .catalogsSchema, 0, 1⟩ ∧
    DoGetCatalogs.queriesRun = [] ∧
    DoGetCatalogs.rowCount = 0 ∧
    (∀ cmd : CommandGetSchemas, DoGetSchemas cmd = ⟨[], .schemasSchema, 0, 2⟩) ∧
    (∀ cmd : CommandGetSchemas, (DoGetSchemas cmd).queriesRun = [] ∧
      (DoGetSchemas cmd).rowCount = 0) :=
  ⟨rfl, rfl, rfl, fun _ => rfl, fun _ => ⟨rfl, rfl⟩⟩

end ArrowSqliteServer

